import Mathlib

/-!
Verification of the DGX-Desktop-Remote network core against its
specification.  Each definition is a shallow embedding of a function in
the repository sources (dgx-service/src/server.py, rpc_handler.py,
screen_capture.py, pc-application/src/network/connection.py,
pc-application/src/transfer/transfer_session.py).  Byte streams are
lists of naturals below 256, Python strings are Lean Strings, Python
ints are Lean Ints/Nats.
-/

namespace DGX

/-! ## Python path and string helpers -/

/-- Split a character list at every occurrence of `sep` (Python
`str.split(sep)` for a one-character separator). -/
def splitOnChar (sep : Char) : List Char → List (List Char)
  | [] => [[]]
  | c :: cs =>
      match splitOnChar sep cs with
      | [] => [[]]
      | p :: ps => if c = sep then [] :: p :: ps else (c :: p) :: ps

/-- Semantics of Python `pathlib.Path(s).name` on POSIX: split on `/`,
drop empty and `.` segments, take the last segment (or `""`).
Used by `ClientSession._handle_file_receive` and
`RPCHandler.handle_place_staged` to sanitize filenames. -/
def pyName (s : String) : String :=
  let parts := (splitOnChar '/' s.data).filter (fun p => !(p.isEmpty) && !(p == ['.']))
  String.mk (parts.getLast?.getD [])

/-- Semantics of Python `str.replace(old, new)` when `old` is a single
character: every occurrence is replaced, left to right. -/
def pyReplaceChar (old : Char) (new : List Char) : List Char → List Char
  | [] => []
  | c :: cs => (if c = old then new else [c]) ++ pyReplaceChar old new cs

/-- Python truthiness chain `a or b or c` on strings: first non-empty. -/
def firstNonempty (a b c : String) : String :=
  if a ≠ "" then a else if b ≠ "" then b else c

/-! ## SHA-256 (hashlib.sha256 over a byte list), needed by the
file-bridge handlers.  Words are naturals reduced mod 2^32. -/

def w32 (n : Nat) : Nat := n % 4294967296

def rotr32 (k x : Nat) : Nat := w32 (Nat.lor (x >>> k) (x <<< (32 - k)))

def chVal (x y z : Nat) : Nat :=
  Nat.xor (Nat.land x y) (Nat.land (Nat.xor x 4294967295) z)

def majVal (x y z : Nat) : Nat :=
  Nat.xor (Nat.xor (Nat.land x y) (Nat.land x z)) (Nat.land y z)

def bigSigma0 (x : Nat) : Nat := Nat.xor (Nat.xor (rotr32 2 x) (rotr32 13 x)) (rotr32 22 x)

def bigSigma1 (x : Nat) : Nat := Nat.xor (Nat.xor (rotr32 6 x) (rotr32 11 x)) (rotr32 25 x)

def smallSigma0 (x : Nat) : Nat := Nat.xor (Nat.xor (rotr32 7 x) (rotr32 18 x)) (x >>> 3)

def smallSigma1 (x : Nat) : Nat := Nat.xor (Nat.xor (rotr32 17 x) (rotr32 19 x)) (x >>> 10)

/-- The 64 SHA-256 round constants (FIPS 180-4), written in decimal. -/
def shaK : List Nat :=
  [1116352408, 1899447441, 3049323471, 3921009573, 961987163, 1508970993,
   2453635748, 2870763221, 3624381080, 310598401, 607225278, 1426881987,
   1925078388, 2162078206, 2614888103, 3248222580, 3835390401, 4022224774,
   264347078, 604807628, 770255983, 1249150122, 1555081692, 1996064986,
   2554220882, 2821834349, 2952996808, 3210313671, 3336571891, 3584528711,
   113926993, 338241895, 666307205, 773529912, 1294757372, 1396182291,
   1695183700, 1986661051, 2177026350, 2456956037, 2730485921, 2820302411,
   3259730800, 3345764771, 3516065817, 3600352804, 4094571909, 275423344,
   430227734, 506948616, 659060556, 883997877, 958139571, 1322822218,
   1537002063, 1747873779, 1955562222, 2024104815, 2227730452, 2361852424,
   2428436474, 2756734187, 3204031479, 3329325298]

/-- The eight SHA-256 initial hash values (FIPS 180-4), in decimal. -/
def shaH0 : List Nat :=
  [1779033703, 3144134277, 1013904242, 2773480762,
   1359893119, 2600822924, 528734635, 1541459225]

/-- Big-endian byte expansion of `n` into `k` bytes. -/
def bytesBE (k n : Nat) : List Nat :=
  (List.range k).reverse.map (fun i => (n >>> (8 * i)) % 256)

/-- SHA-256 padding: append 0x80, zero bytes to 56 mod 64, then the
8-byte big-endian bit length. -/
def sha256pad (msg : List Nat) : List Nat :=
  let z := (119 - (msg.length % 64)) % 64
  msg ++ [128] ++ List.replicate z 0 ++ bytesBE 8 (msg.length * 8)

/-- Group bytes into big-endian 32-bit words. -/
def toWordsBE : List Nat → List Nat
  | b0 :: b1 :: b2 :: b3 :: rest =>
      (((b0 * 256 + b1) * 256 + b2) * 256 + b3) :: toWordsBE rest
  | _ => []

def chunks64go : Nat → List Nat → List (List Nat)
  | 0, _ => []
  | _, [] => []
  | fuel + 1, l => l.take 64 :: chunks64go fuel (l.drop 64)

/-- Split a byte list into 64-byte blocks. -/
def chunks64 (l : List Nat) : List (List Nat) := chunks64go (l.length + 1) l

/-- Extend the 16-word block to the 64-word message schedule. -/
def extendW (ws : List Nat) : List Nat :=
  (List.range 48).foldl (fun w i =>
    let t := i + 16
    w ++ [w32 (smallSigma1 (w.getD (t - 2) 0) + w.getD (t - 7) 0 +
               smallSigma0 (w.getD (t - 15) 0) + w.getD (t - 16) 0)]) ws

structure H8 where
  a : Nat
  b : Nat
  c : Nat
  d : Nat
  e : Nat
  f : Nat
  g : Nat
  h : Nat

def shaRound (k w : Nat) (s : H8) : H8 :=
  let t1 := w32 (s.h + bigSigma1 s.e + chVal s.e s.f s.g + k + w)
  let t2 := w32 (bigSigma0 s.a + majVal s.a s.b s.c)
  ⟨w32 (t1 + t2), s.a, s.b, s.c, w32 (s.d + t1), s.e, s.f, s.g⟩

def compressBlock (hs ws : List Nat) : List Nat :=
  let s0 : H8 := ⟨hs.getD 0 0, hs.getD 1 0, hs.getD 2 0, hs.getD 3 0,
                  hs.getD 4 0, hs.getD 5 0, hs.getD 6 0, hs.getD 7 0⟩
  let s := (List.zip shaK ws).foldl (fun s kw => shaRound kw.1 kw.2 s) s0
  [w32 (s0.a + s.a), w32 (s0.b + s.b), w32 (s0.c + s.c), w32 (s0.d + s.d),
   w32 (s0.e + s.e), w32 (s0.f + s.f), w32 (s0.g + s.g), w32 (s0.h + s.h)]

def sha256words (msg : List Nat) : List Nat :=
  (chunks64 (sha256pad msg)).foldl
    (fun hs block => compressBlock hs (extendW (toWordsBE block))) shaH0

def hexDigit (n : Nat) : Char :=
  if n < 10 then Char.ofNat (48 + n) else Char.ofNat (87 + n)

def hex8 (n : Nat) : String :=
  String.mk ((List.range 8).reverse.map (fun i => hexDigit ((n >>> (4 * i)) % 16)))

/-- Hex digest, as `hashlib.sha256(bytes).hexdigest()`. -/
def sha256hex (msg : List Nat) : String :=
  String.join ((sha256words msg).map hex8)

/-! ## File receive (server.py, `ClientSession._handle_file_receive`)

The handler validates the folder against the closed legal set, sanitizes
the filename to a basename, streams `size` bytes while hashing them, and
responds.  The embedding takes the bytes actually received and yields
the final response; the mid-stream `{ok:true, type:"ready"}` and the
destination path are recorded separately. -/

def VALID_FOLDERS : List String := ["inbox", "outbox", "staging", "archive"]

structure FileSendMsg where
  folder : String
  size : Nat
  sha256 : String      -- "" when the declared checksum is absent
  metaName : String    -- metadata.name, "" when absent
  filename : String    -- "" when absent
  deriving DecidableEq

/-- Response of `_handle_file_receive`: either the early
`{ok:false, error}` envelope or the final `{ok, sha256}` envelope. -/
inductive FRResp
  | err (error : String)
  | done (ok : Bool) (sha256 : String)
  deriving DecidableEq

/-- The sanitized filename the handler writes to:
`name = Path(meta.get("name") or msg.get("filename") or "received_file").name`. -/
def receiveName (msg : FileSendMsg) : String :=
  pyName (firstNonempty msg.metaName msg.filename "received_file")

/-- Destination path of the upload, relative to the server home:
`TRANSFER_ROOT / folder / name` with `TRANSFER_ROOT = ~/Desktop/PC-Transfer`. -/
def receiveDest (msg : FileSendMsg) : String :=
  "Desktop/PC-Transfer/" ++ msg.folder ++ "/" ++ receiveName msg

/-- Final response of `_handle_file_receive` when all `size` bytes were
received and written (`received` is the byte sequence read):
`ok = (sha.hexdigest() == expected) if expected else True`. -/
def handle_file_receive (msg : FileSendMsg) (received : List Nat) : FRResp :=
  if VALID_FOLDERS.contains msg.folder then
    let digest := sha256hex received
    let ok := if msg.sha256 ≠ "" then digest == msg.sha256 else true
    .done ok digest
  else
    .err "Invalid folder"

/-- The per-session staging folder string the client transfer pipeline
sends (transfer_session.py, `TransferSession.dgx_stage_path`):
`f"{DGX_STAGE_ROOT}/{self._session_id}"` with `DGX_STAGE_ROOT = "BridgeStaging"`. -/
def dgx_stage_path (session_id : String) : String :=
  "BridgeStaging/" ++ session_id

/-! ## Service state, negotiation, session creation (server.py,
`DGXService._handle_negotiation`, `_accept_rpc`, `_start_session`) -/

/-- State of one `ClientSession` object: its RPC socket, the optional
video/input sockets, and the `_running` flag (set in `run()`). -/
structure SessionSt where
  rpcConn : Nat
  vidConn : Option Nat
  inpConn : Option Nat
  running : Bool
  deriving DecidableEq

/-- State of the `DGXService` object relevant to session management. -/
structure ServiceState where
  rpcPort : Nat
  videoPort : Nat
  inputPort : Nat
  session : Option SessionSt
  pendingVid : Option Nat
  pendingInp : Option Nat
  deriving DecidableEq

/-- Python `self._session and self._session._running`. -/
def session_active (st : ServiceState) : Bool :=
  match st.session with
  | none => false
  | some s => s.running

/-- Response sent by `_handle_negotiation`. -/
inductive NegoResp
  | reject (error : String)
  | accept (rpc video input : Nat)
  deriving DecidableEq

/-- Embedding of `DGXService._handle_negotiation` (decision logic after a
full line has been read and parsed): wrong type is rejected, an active
session is rejected, otherwise the already-bound triplet is advertised. -/
def handle_negotiation (st : ServiceState) (msgType : String) : NegoResp :=
  if msgType ≠ "negotiate" then .reject "expected negotiate"
  else if session_active st then .reject "session already active"
  else .accept st.rpcPort st.videoPort st.inputPort

/-- Embedding of `DGXService._start_session`, which `_accept_rpc` calls
for every accepted RPC connection: a fresh `ClientSession` is created,
parked sockets are fused in, the pending slots are cleared, and the new
session is installed as `self._session`.  `run()` has not started yet,
so `_running` is still false. -/
def start_session (st : ServiceState) (conn : Nat) : ServiceState :=
  { st with
    session := some { rpcConn := conn, vidConn := st.pendingVid,
                      inpConn := st.pendingInp, running := false }
    pendingVid := none
    pendingInp := none }

/-! ## Capture parameters (screen_capture.py, rpc_handler.py) -/

structure CaptureParams where
  fps : Int
  quality : Int
  deriving DecidableEq

/-- Clamping done in `ScreenCapture.__init__`:
`self._fps = max(1, min(fps, 120))`, `self._quality = max(40, min(quality, 100))`. -/
def ScreenCapture_init (fps quality : Int) : CaptureParams :=
  { fps := max 1 (min fps 120), quality := max 40 (min quality 100) }

/-- Embedding of `ScreenCapture.set_params`: each provided value is
stored as given (the source performs no clamping here). -/
def set_params (st : CaptureParams) (fps quality : Option Int) : CaptureParams :=
  let st := match fps with
            | some f => { st with fps := f }
            | none => st
  match quality with
  | some q => { st with quality := q }
  | none => st

/-- Embedding of `RPCHandler.handle_set_capture_params`: forwards the
request values to `set_params` unchanged. -/
def handle_set_capture_params (st : CaptureParams) (fps quality : Option Int) : CaptureParams :=
  set_params st fps quality

/-! ## place_staged (rpc_handler.py, `RPCHandler.handle_place_staged`) -/

structure PlaceMsg where
  session_id : String
  filename : String
  destination : String
  deriving DecidableEq

inductive PlaceResp
  | err (error : String)
  | ok (destination : String)
  deriving DecidableEq

/-- Outcome of `handle_place_staged`: the response envelope, plus the
(src, dst) pair actually passed to `shutil.move` when a move happens. -/
structure PlaceOutcome where
  resp : PlaceResp
  moved : Option (String × String)
  deriving DecidableEq

/-- Python `destination.replace("~", str(Path.home()))`: every
occurrence of `~` (not only a leading one) becomes the home path. -/
def expandTilde (home dest : String) : String :=
  String.mk (pyReplaceChar '~' home.data dest.data)

/-- Embedding of `RPCHandler.handle_place_staged`.  `stagedExists sid name`
models `(BRIDGE_STAGING / sid / name).exists()`; `home` is `str(Path.home())`.
The success branch assumes `shutil.move` succeeds. -/
def handle_place_staged (stagedExists : String → String → Bool) (home : String)
    (msg : PlaceMsg) : PlaceOutcome :=
  if msg.session_id == "" || msg.filename == "" || msg.destination == "" then
    ⟨.err "Missing session_id, filename, or destination", none⟩
  else if pyName msg.filename == "" then ⟨.err "Invalid filename", none⟩
  else if !(stagedExists msg.session_id (pyName msg.filename)) then
    ⟨.err ("Staged file not found: " ++ home ++ "/BridgeStaging/" ++
           msg.session_id ++ "/" ++ pyName msg.filename), none⟩
  else
    ⟨.ok (expandTilde home msg.destination),
     some (home ++ "/BridgeStaging/" ++ msg.session_id ++ "/" ++ pyName msg.filename,
           expandTilde home msg.destination)⟩

/-! ## Client video reader (connection.py, `DGXConnection._video_loop`) -/

/-- Sanity filter applied to the 4-byte big-endian length `size`:
`if size == 0 or size > 20_000_000: continue` — the payload is read and
delivered only when this negated condition is true. -/
def frame_ok (size : Nat) : Bool :=
  !(size == 0 || size > 20000000)

/-- Big-endian 32-bit word from the first four bytes of the stream
(`struct.unpack(">I", header_bytes)[0]`). -/
def unpackBE4 : List Nat → Nat
  | b0 :: b1 :: b2 :: b3 :: _ => ((b0 * 256 + b1) * 256 + b2) * 256 + b3
  | _ => 0

/-- Wire format of one video frame as emitted by
`ClientSession._on_frame`: `struct.pack(">I", len(jpeg))` followed by
the JPEG payload. -/
def frameBytes (jpeg : List Nat) : List Nat :=
  bytesBE 4 jpeg.length ++ jpeg

/-- Embedding of `DGXConnection._video_loop` over the finite byte
stream available before EOF.  Each iteration reads exactly 4 header
bytes (EOF mid-header raises and breaks the loop), unpacks the
big-endian length, and applies
`if size == 0 or size > 20_000_000: continue` — the `continue` has
consumed only the header, so the oversized payload stays in the stream
and is re-parsed as if it were framing.  Otherwise exactly `size`
payload bytes are read (EOF mid-payload breaks) and handed to
`on_frame`.  Returns the delivered payloads in order; `fuel` only
bounds the recursion and every caller supplies at least the stream
length (each iteration consumes at least four bytes). -/
def video_loop : Nat → List Nat → List (List Nat)
  | 0, _ => []
  | fuel + 1, stream =>
      if stream.length < 4 then []
      else if unpackBE4 stream == 0 || unpackBE4 stream > 20000000 then
        video_loop fuel (stream.drop 4)
      else if (stream.drop 4).length < unpackBE4 stream then []
      else (stream.drop 4).take (unpackBE4 stream)
             :: video_loop fuel ((stream.drop 4).drop (unpackBE4 stream))

/-- The video loop run on a byte stream, with fuel covering every
iteration the stream can drive. -/
def video_loop_run (stream : List Nat) : List (List Nat) :=
  video_loop stream.length stream

/-! ## Client mouse coalescing (connection.py, `send_mouse_move`,
`send_mouse_press` et al., `_mouse_flush_loop`)

The shared state is the coalescing slot (`_mouse_x`, `_mouse_y`,
`_mouse_dirty`, guarded by `_mouse_lock`) and the sequence of envelopes
written to the input socket.  Atomic steps, one per lock-protected
block or socket write:
  * `uiMove` — the body of `send_mouse_move` (records, writes nothing);
  * `uiPress` / `uiRelease` / `uiScroll` — inline `_send_input` writes
    from the UI thread;
  * `flush` — one iteration of `_mouse_flush_loop` in which the grab of
    the slot is immediately followed by the send (any schedule of the
    real code in which nothing runs between grab and send).
An interleaving is a list of such steps. -/

inductive InputEvent
  | move (x y : Int)
  | press (button : String)
  | release (button : String)
  | scroll (dy : Int)
  deriving DecidableEq

inductive MouseAction
  | uiMove (x y : Int)
  | uiPress (button : String)
  | uiRelease (button : String)
  | uiScroll (dy : Int)
  | flush
  deriving DecidableEq

structure MouseState where
  mouseX : Int
  mouseY : Int
  dirty : Bool
  wire : List InputEvent
  deriving DecidableEq

/-- Initial state from `DGXConnection.__init__`:
`_mouse_x = _mouse_y = -1`, `_mouse_dirty = False`. -/
def mouseInit : MouseState :=
  { mouseX := -1, mouseY := -1, dirty := false, wire := [] }

def mouseStep (s : MouseState) : MouseAction → MouseState
  | .uiMove x y => { s with mouseX := x, mouseY := y, dirty := true }
  | .uiPress b => { s with wire := s.wire ++ [.press b] }
  | .uiRelease b => { s with wire := s.wire ++ [.release b] }
  | .uiScroll dy => { s with wire := s.wire ++ [.scroll dy] }
  | .flush =>
      if s.dirty then
        { s with dirty := false, wire := s.wire ++ [.move s.mouseX s.mouseY] }
      else s

def mouseRun (s : MouseState) : List MouseAction → MouseState
  | [] => s
  | a :: rest => mouseRun (mouseStep s a) rest

/-! ## Control-channel line reader and session loop (server.py,
`_recv_line` and `ClientSession.run`) -/

/-- Byte-at-a-time reader of `_recv_line`: stops at EOF (end of list)
or at a newline byte, accumulating at most `maxlen` bytes (a longer
line raises `ValueError`, modelled as `none`).  Returns the buffered
line and the unread remainder of the stream. -/
def recv_line_go (maxlen : Nat) (acc : List Nat) : List Nat → Option (List Nat × List Nat)
  | [] => some (acc.reverse, [])
  | b :: rest =>
      if b == 10 then some (acc.reverse, rest)
      else if acc.length + 1 > maxlen then none
      else recv_line_go maxlen (b :: acc) rest

def recv_line (maxlen : Nat) (stream : List Nat) : Option (List Nat × List Nat) :=
  recv_line_go maxlen [] stream

/-- Observable outcome of `ClientSession.run`'s main loop and cleanup:
whether `_running` is still set, whether capture is on, whether the
three sockets were closed, and the raw lines that were dispatched. -/
structure SessState where
  running : Bool
  captureOn : Bool
  socketsClosed : Bool
  handled : List (List Nat)
  deriving DecidableEq

/-- `ClientSession._cleanup`: `_running = False`, `capture.stop()`,
close all three sockets. -/
def session_cleanup (handled : List (List Nat)) : SessState :=
  { running := false, captureOn := false, socketsClosed := true, handled := handled }

/-- Main control loop of `ClientSession.run` after the hello handshake
(capture already started): read a line; an empty line breaks the loop;
otherwise the message is dispatched and the loop continues.  The
`finally` clause always runs `_cleanup`.  `fuel` only bounds the
recursion and exceeds the stream length at the call site. -/
def session_loop : Nat → List Nat → List (List Nat) → SessState
  | 0, _, handled => session_cleanup handled
  | fuel + 1, stream, handled =>
      match recv_line 131072 stream with
      | none => session_cleanup handled
      | some (line, rest) =>
          if line.isEmpty then session_cleanup handled
          else session_loop fuel rest (handled ++ [line])

/-- The session loop run on a byte stream from its start state. -/
def session_run (stream : List Nat) : SessState :=
  session_loop (stream.length + 1) stream []

/-! ## General lemmas -/

theorem pyReplaceChar_flatten (old : Char) (new : List Char) (l : List Char) :
    pyReplaceChar old new l = (l.map (fun c => if c = old then new else [c])).flatten := by
  induction l with
  | nil => rfl
  | cons c cs ih => simp [pyReplaceChar, ih]

theorem dgx_stage_path_ne (sid t : String) (h : t.length < 14) :
    dgx_stage_path sid ≠ t := by
  intro he
  have hlen : (dgx_stage_path sid).length = t.length := congrArg String.length he
  rw [dgx_stage_path, String.length_append] at hlen
  have h14 : ("BridgeStaging/" : String).length = 14 := rfl
  omega

theorem length_bytesBE (k n : Nat) : (bytesBE k n).length = k := by
  simp [bytesBE]

theorem unpackBE4_bytesBE (n : Nat) (tail : List Nat) (h : n < 4294967296) :
    unpackBE4 (bytesBE 4 n ++ tail) = n := by
  have e : bytesBE 4 n ++ tail
      = (n >>> 24) % 256 :: (n >>> 16) % 256 :: (n >>> 8) % 256 :: (n >>> 0) % 256 :: tail := rfl
  rw [e]
  show (((n >>> 24) % 256 * 256 + (n >>> 16) % 256) * 256 + (n >>> 8) % 256) * 256
        + (n >>> 0) % 256 = n
  rw [Nat.shiftRight_eq_div_pow, Nat.shiftRight_eq_div_pow,
      Nat.shiftRight_eq_div_pow, Nat.shiftRight_eq_div_pow]
  omega

theorem frame_step_deliver (fuel : Nat) (p rest : List Nat)
    (hok : frame_ok p.length = true) :
    video_loop (fuel + 1) (frameBytes p ++ rest) = p :: video_loop fuel rest := by
  rw [frame_ok] at hok
  simp only [Bool.not_eq_eq_eq_not, Bool.not_true, Bool.or_eq_false_iff,
    beq_eq_false_iff_ne, ne_eq, decide_eq_false_iff_not, not_lt] at hok
  obtain ⟨h0, h20⟩ := hok
  have h32 : p.length < 4294967296 := by omega
  have hfb : frameBytes p ++ rest = bytesBE 4 p.length ++ (p ++ rest) := by
    rw [frameBytes, List.append_assoc]
  have hu : unpackBE4 (frameBytes p ++ rest) = p.length := by
    rw [hfb, unpackBE4_bytesBE _ _ h32]
  have hdrop : (frameBytes p ++ rest).drop 4 = p ++ rest := by
    rw [hfb]
    exact List.drop_left' (length_bytesBE 4 p.length)
  have hlen : (frameBytes p ++ rest).length = 4 + (p.length + rest.length) := by
    rw [hfb]
    simp [length_bytesBE]
  simp only [video_loop, hu, hdrop]
  rw [if_neg (by rw [hlen]; omega),
      if_neg (by simp only [Bool.or_eq_true, beq_iff_eq, decide_eq_true_eq, not_or]; omega),
      if_neg (by simp only [List.length_append, not_lt]; omega),
      List.take_left, List.drop_left]

theorem frame_step_skip (fuel : Nat) (p rest : List Nat)
    (hskip : frame_ok p.length = false) (h32 : p.length < 4294967296) :
    video_loop (fuel + 1) (frameBytes p ++ rest) = video_loop fuel (p ++ rest) := by
  have hc : (p.length == 0 || decide (p.length > 20000000)) = true := by
    revert hskip
    rw [frame_ok]
    cases p.length == 0 || decide (p.length > 20000000) <;> simp
  have hfb : frameBytes p ++ rest = bytesBE 4 p.length ++ (p ++ rest) := by
    rw [frameBytes, List.append_assoc]
  have hu : unpackBE4 (frameBytes p ++ rest) = p.length := by
    rw [hfb, unpackBE4_bytesBE _ _ h32]
  have hdrop : (frameBytes p ++ rest).drop 4 = p ++ rest := by
    rw [hfb]
    exact List.drop_left' (length_bytesBE 4 p.length)
  have hlen : (frameBytes p ++ rest).length = 4 + (p.length + rest.length) := by
    rw [hfb]
    simp [length_bytesBE]
  simp only [video_loop, hu, hdrop]
  rw [if_neg (by rw [hlen]; omega), if_pos hc]

theorem video_loop_nil (fuel : Nat) : video_loop fuel [] = [] := by
  cases fuel <;> simp [video_loop]

theorem video_loop_delivers (payloads : List (List Nat)) (fuel : Nat)
    (hok : ∀ q ∈ payloads, frame_ok q.length = true)
    (hfuel : payloads.length ≤ fuel) :
    video_loop fuel (payloads.map frameBytes).flatten = payloads := by
  induction payloads generalizing fuel with
  | nil => simpa using video_loop_nil fuel
  | cons p ps ih =>
      have h1 : 1 ≤ fuel := le_trans (by simp) hfuel
      obtain ⟨f, rfl⟩ : ∃ f, fuel = f + 1 := ⟨fuel - 1, by omega⟩
      simp only [List.map_cons, List.flatten_cons]
      rw [frame_step_deliver f _ _ (hok p (by simp))]
      congr 1
      exact ih f (fun q hq => hok q (List.mem_cons_of_mem _ hq))
        (by simp only [List.length_cons] at hfuel; omega)

theorem length_le_length_flatten_frames (payloads : List (List Nat)) :
    payloads.length ≤ ((payloads.map frameBytes).flatten).length := by
  induction payloads with
  | nil => simp
  | cons p ps ih =>
      have hp : (frameBytes p).length = 4 + p.length := by
        rw [frameBytes]
        simp [length_bytesBE]
      simp only [List.map_cons, List.flatten_cons, List.length_append, List.length_cons, hp]
      omega

theorem video_loop_replicate37 (fuel : Nat) :
    ∀ n, video_loop fuel (List.replicate n 37) = [] := by
  induction fuel with
  | zero => intro n; rfl
  | succ fuel ih =>
      intro n
      by_cases h : n < 4
      · simp only [video_loop]
        rw [if_pos (by simpa using h)]
      · obtain ⟨k, rfl⟩ : ∃ k, n = 4 + k := ⟨n - 4, by omega⟩
        have he : List.replicate (4 + k) 37
            = 37 :: 37 :: 37 :: 37 :: List.replicate k 37 := by
          rw [List.replicate_add]
          rfl
        have hu : unpackBE4 (List.replicate (4 + k) 37) = 623191333 := by
          rw [he]
          show ((37 * 256 + 37) * 256 + 37) * 256 + 37 = 623191333
          norm_num
        have hdrop : (List.replicate (4 + k) 37).drop 4 = List.replicate k 37 := by
          rw [he]
          rfl
        have hlen : (List.replicate (4 + k) 37).length = 4 + k := by simp
        simp only [video_loop, hu, hdrop, hlen]
        rw [if_neg (by omega), if_pos (by decide)]
        exact ih k

/-! ## Claim theorems -/

/-- C1 counterexample: a `file_send` upload in which all declared bytes
(here zero of them) are received and written, with a declared sha256
("00") that differs from the computed digest of the received bytes.
The final response has `ok = false`, not `ok = true` as claimed: the
checksum comparison does turn `ok` into false. -/
theorem C1_counterexample :
    handle_file_receive
      { folder := "inbox", size := 0, sha256 := "00", metaName := "", filename := "f.txt" } []
      = .done false "e3b0c44298fc1c149afbf4c8996fb92427ae41e4649b934ca495991b7852b855" := by
  decide

/-- C1 (amended): for every `file_send` upload in which the server
receives and writes all `size` declared bytes, the final response is
`{ok, sha256}` carrying the server-computed digest, where `ok` is true
iff the declared sha256 is absent or matches the computed one. -/
theorem C1_checksum_comparison (msg : FileSendMsg) (received : List Nat)
    (hfolder : VALID_FOLDERS.contains msg.folder = true)
    (_hsize : received.length = msg.size) :
    handle_file_receive msg received =
      .done ((msg.sha256 == "") || (sha256hex received == msg.sha256)) (sha256hex received) := by
  rw [handle_file_receive, if_pos hfolder]
  by_cases h : msg.sha256 = "" <;> simp [h]

/-- C1 witness: concrete instance of the amended theorem, evaluated. -/
theorem C1_checksum_comparison_witness :
    VALID_FOLDERS.contains "inbox" = true ∧
    handle_file_receive
      { folder := "inbox", size := 0, sha256 := "ff", metaName := "", filename := "g.txt" } []
      = .done false "e3b0c44298fc1c149afbf4c8996fb92427ae41e4649b934ca495991b7852b855" := by
  refine ⟨by decide, ?_⟩
  rw [C1_checksum_comparison _ _ (by decide) rfl]
  decide

/-- C2: while a Session exists and is active (`_running` true), every
negotiation request of type "negotiate" on the discovery port is
answered `{ok:false, error:"session already active"}` and no port
triplet is returned, for every service state of that shape. -/
theorem C2_negotiate_rejected_while_active
    (rpcPort videoPort inputPort rpcConn : Nat) (vidC inpC pv pi : Option Nat) :
    handle_negotiation
      { rpcPort := rpcPort, videoPort := videoPort, inputPort := inputPort,
        session := some { rpcConn := rpcConn, vidConn := vidC, inpConn := inpC, running := true },
        pendingVid := pv, pendingInp := pi } "negotiate"
      = .reject "session already active" := rfl

/-- C3 counterexample: with a Session active (its sockets not closed),
a second connection accepted on the RPC port is not rejected:
`_start_session` creates a new Session for it and installs it in place
of the current one. -/
theorem C3_counterexample :
    session_active
      { rpcPort := 22010, videoPort := 22011, inputPort := 22012,
        session := some { rpcConn := 1, vidConn := none, inpConn := none, running := true },
        pendingVid := none, pendingInp := none } = true ∧
    (start_session
      { rpcPort := 22010, videoPort := 22011, inputPort := 22012,
        session := some { rpcConn := 1, vidConn := none, inpConn := none, running := true },
        pendingVid := none, pendingInp := none } 2).session
      = some { rpcConn := 2, vidConn := none, inpConn := none, running := false } := by
  decide

/-- C3 (amended): every connection accepted on the RPC port gets a
fresh Session installed (replacing the current one when it is active —
the two differ since a fresh session is not yet running), while only
discovery-port negotiation is rejected during an active session. -/
theorem C3_rpc_accept_replaces_session (st : ServiceState) (conn : Nat) :
    (∃ s : SessionSt, (start_session st conn).session = some s ∧
        s.rpcConn = conn ∧ s.running = false) ∧
    (session_active st = true → (start_session st conn).session ≠ st.session) ∧
    handle_negotiation st "negotiate"
      = (if session_active st then .reject "session already active"
         else .accept st.rpcPort st.videoPort st.inputPort) := by
  refine ⟨⟨_, rfl, rfl, rfl⟩, ?_, rfl⟩
  intro hact he
  match hs : st.session with
  | none => rw [session_active, hs] at hact; exact Bool.false_ne_true hact
  | some s =>
      rw [session_active, hs] at hact
      rw [hs, start_session] at he
      have := (Option.some_inj.mp he) ▸ hact
      simp at this

/-- C3 witness for the amended theorem at a concrete active state. -/
theorem C3_rpc_accept_replaces_session_witness :
    (start_session
      { rpcPort := 22010, videoPort := 22011, inputPort := 22012,
        session := some { rpcConn := 7, vidConn := none, inpConn := none, running := true },
        pendingVid := none, pendingInp := none } 8).session
      ≠ some { rpcConn := 7, vidConn := none, inpConn := none, running := true } :=
  (C3_rpc_accept_replaces_session
    { rpcPort := 22010, videoPort := 22011, inputPort := 22012,
      session := some { rpcConn := 7, vidConn := none, inpConn := none, running := true },
      pendingVid := none, pendingInp := none } 8).2.1 rfl

/-- C4: the folder string the client transfer pipeline sends
(`BridgeStaging/<session_id>`) is never in the server's legal folder
set, so every such `file_send` upload is rejected with
`{ok:false, error:"Invalid folder"}` — the server's validator does not
include the dynamic staging namespace the spec (and the client
pipeline, and the server's own `place_staged` suite) relies on. -/
theorem C4_staging_folder_rejected (session_id : String) :
    VALID_FOLDERS.contains (dgx_stage_path session_id) = false ∧
    handle_file_receive
      { folder := dgx_stage_path session_id, size := 5, sha256 := "",
        metaName := "x.txt", filename := "" } [1, 2, 3, 4, 5]
      = .err "Invalid folder" := by
  have hc : VALID_FOLDERS.contains (dgx_stage_path session_id) = false := by
    have h1 := dgx_stage_path_ne session_id "inbox" (by decide)
    have h2 := dgx_stage_path_ne session_id "outbox" (by decide)
    have h3 := dgx_stage_path_ne session_id "staging" (by decide)
    have h4 := dgx_stage_path_ne session_id "archive" (by decide)
    simp only [VALID_FOLDERS]
    simp [h1, h2, h3, h4]
  exact ⟨hc, by rw [handle_file_receive, if_neg (by rw [hc]; exact Bool.false_ne_true)]⟩

/-- C5: `set_capture_params` does not clamp: the constructor clamps
(200, 20) to (120, 40), showing the intended ranges, but
`handle_set_capture_params`/`set_params` store fps = 200 and
quality = 20 unchanged, violating fps ∈ [1,120] and quality ∈ [40,100]. -/
theorem C5_set_params_does_not_clamp :
    ScreenCapture_init 200 20 = { fps := 120, quality := 40 } ∧
    handle_set_capture_params (ScreenCapture_init 60 85) (some 200) (some 20)
      = { fps := 200, quality := 20 } ∧
    ¬((handle_set_capture_params (ScreenCapture_init 60 85) (some 200) (some 20)).fps ≤ 120) ∧
    (handle_set_capture_params (ScreenCapture_init 60 85) (some 200) (some 20)).quality < 40 := by
  decide

/-- C6 counterexample: a `place_staged` request whose filename contains
a path separator ("a/b.txt") is not rejected: it is accepted (the staged
file `b.txt` exists for this session) and answered with `ok`. -/
theorem C6_counterexample :
    handle_place_staged (fun sid name => sid == "s1" && name == "b.txt") "/home/u"
      { session_id := "s1", filename := "a/b.txt", destination := "/tmp/out.txt" }
      = ⟨.ok "/tmp/out.txt", some ("/home/u/BridgeStaging/s1/b.txt", "/tmp/out.txt")⟩ := by
  decide

/-- C6 (amended): `place_staged` sanitizes the filename to its basename
instead of rejecting path separators: every accepted request moves
exactly `~/BridgeStaging/<session_id>/<basename of filename>`, and a
request whose filename has an empty basename (with all fields present)
is rejected with `{ok:false, error:"Invalid filename"}`. -/
theorem C6_place_staged_sanitizes (ex : String → String → Bool) (home : String)
    (msg : PlaceMsg) :
    (∀ d, (handle_place_staged ex home msg).resp = .ok d →
        (handle_place_staged ex home msg).moved =
          some (home ++ "/BridgeStaging/" ++ msg.session_id ++ "/" ++ pyName msg.filename, d)) ∧
    (msg.session_id ≠ "" → msg.filename ≠ "" → msg.destination ≠ "" →
      pyName msg.filename = "" →
      handle_place_staged ex home msg = ⟨.err "Invalid filename", none⟩) := by
  constructor
  · intro d hok
    rw [handle_place_staged] at hok ⊢
    split_ifs at hok ⊢
    simp only [PlaceResp.ok.injEq] at hok
    subst hok
    rfl
  · intro h1 h2 h3 h4
    rw [handle_place_staged, if_neg (by simp [h1, h2, h3]), if_pos (by simp [h4])]

/-- C6 witness: concrete instances of both clauses of the amended
theorem, one accepted move from the staging basename, one rejection. -/
theorem C6_place_staged_sanitizes_witness :
    (handle_place_staged (fun _ _ => true) "/h"
       { session_id := "s2", filename := "x/y.txt", destination := "/tmp/z" }).moved
      = some ("/h" ++ "/BridgeStaging/" ++ "s2" ++ "/" ++ pyName "x/y.txt", "/tmp/z") ∧
    handle_place_staged (fun _ _ => true) "/h"
      { session_id := "s2", filename := "/", destination := "/tmp/z" }
      = ⟨.err "Invalid filename", none⟩ :=
  ⟨(C6_place_staged_sanitizes (fun _ _ => true) "/h"
      { session_id := "s2", filename := "x/y.txt", destination := "/tmp/z" }).1
        "/tmp/z" (by decide),
   (C6_place_staged_sanitizes (fun _ _ => true) "/h"
      { session_id := "s2", filename := "/", destination := "/tmp/z" }).2
        (by decide) (by decide) (by decide) (by decide)⟩

/-- C7 counterexample: a single frame whose length prefix is
20 500 000 — strictly between the code's 20 000 000-byte cutoff and
20 MiB (20 971 520), so the claim says its payload is delivered — is
never delivered: the reader reads the header, skips without consuming
the payload, and then re-parses the payload bytes (every 4-byte window
of 0x25 bytes decodes to 623 191 333, again oversized) until the
stream is exhausted, delivering nothing. -/
theorem C7_counterexample :
    frame_ok 20500000 = false ∧ 0 < 20500000 ∧ 20500000 ≤ 20 * 1024 * 1024 ∧
    video_loop_run (frameBytes (List.replicate 20500000 37)) = [] := by
  refine ⟨by decide, by decide, by decide, ?_⟩
  rw [video_loop_run]
  have hlen : (frameBytes (List.replicate 20500000 37)).length = 20500003 + 1 := by
    rw [frameBytes, List.length_append, length_bytesBE, List.length_replicate]
  rw [hlen]
  have hskip : frame_ok (List.replicate 20500000 37).length = false := by
    rw [List.length_replicate]
    decide
  have h32 : (List.replicate 20500000 37).length < 4294967296 := by
    rw [List.length_replicate]
    decide
  have hstep := frame_step_skip 20500003 (List.replicate 20500000 37) [] hskip h32
  simp only [List.append_nil] at hstep
  rw [hstep, video_loop_replicate37]

/-- C7 (amended): the reader's sanity test passes exactly the lengths
0 < L ≤ 20 000 000 (20 MB decimal, not 20 MiB); on a stream of frames
all passing the test, every payload is delivered to the callback in
order; a frame failing the test is not delivered — the reader consumes
only its 4 header bytes and leaves the payload in the stream, where it
is re-parsed as framing (desynchronizing the remainder). -/
theorem C7_video_loop_behavior (L fuel : Nat) (p : List Nat)
    (payloads : List (List Nat)) (rest : List Nat)
    (hok : ∀ q ∈ payloads, frame_ok q.length = true)
    (hskip : frame_ok p.length = false) (h32 : p.length < 4294967296) :
    (frame_ok L = true ↔ 0 < L ∧ L ≤ 20000000) ∧
    video_loop_run ((payloads.map frameBytes).flatten) = payloads ∧
    video_loop (fuel + 1) (frameBytes p ++ rest) = video_loop fuel (p ++ rest) := by
  refine ⟨?_, ?_, frame_step_skip fuel p rest hskip h32⟩
  · rw [frame_ok]
    simp
    omega
  · exact video_loop_delivers payloads _ hok (length_le_length_flatten_frames payloads)

/-- C7 witness: concrete instances of all three clauses of the amended
theorem — the filter at L = 7, a two-frame in-range stream delivered
whole, and a zero-length frame skipped with its (empty) payload left
in place before a trailing byte. -/
theorem C7_video_loop_behavior_witness :
    (frame_ok 7 = true ↔ 0 < 7 ∧ 7 ≤ 20000000) ∧
    video_loop_run (([[5], [7, 8]].map frameBytes).flatten) = [[5], [7, 8]] ∧
    video_loop (1 + 1) (frameBytes [] ++ [9]) = video_loop 1 ([] ++ [9]) :=
  C7_video_loop_behavior 7 1 [] [[5], [7, 8]] [9] (by decide) (by decide) (by decide)

/-- C8 counterexample: in the interleaving where the UI thread records
a motion, then sends a press, and only afterwards the flusher runs, the
motion recorded before the press is written to the input socket after
the press — coalescing does reorder a motion across an intervening
press. -/
theorem C8_counterexample :
    (mouseRun mouseInit [.uiMove 5 6, .uiPress "left", .flush]).wire
      = [.press "left", .move 5 6] := by
  decide

/-- C8 (amended): `send_mouse_move` writes nothing to the socket and
only records the latest coordinate; two recorded motions coalesce into
a single mouse_move envelope carrying the most recent coordinate, and a
second flush without a new motion emits nothing; presses are written
inline.  (The no-reordering part of the claim is false, see the
counterexample.) -/
theorem C8_coalescing (s : MouseState) (x1 y1 x2 y2 : Int) (b : String) :
    (mouseStep s (.uiMove x1 y1)).wire = s.wire ∧
    mouseRun s [.uiMove x1 y1, .uiMove x2 y2, .flush, .flush] =
      { s with mouseX := x2, mouseY := y2, dirty := false,
               wire := s.wire ++ [.move x2 y2] } ∧
    (mouseStep s (.uiPress b)).wire = s.wire ++ [.press b] :=
  ⟨rfl, rfl, rfl⟩

/-- C9: a bare newline on the control channel is indistinguishable from
a closed connection: `_recv_line` returns the empty line in both cases,
and the session loop tears down identically (capture stopped, sockets
closed, nothing dispatched), leaving any bytes after the blank line
unread even though the connection is still open. -/
theorem C9_blank_line_equals_closed (rest : List Nat) :
    recv_line 131072 ((10 : Nat) :: rest) = some ([], rest) ∧
    recv_line 131072 [] = some ([], []) ∧
    session_run ((10 : Nat) :: rest) = session_cleanup [] ∧
    session_run [] = session_cleanup [] ∧
    session_cleanup [] =
      { running := false, captureOn := false, socketsClosed := true, handled := [] } :=
  ⟨rfl, rfl, rfl, rfl, rfl⟩

/-- C10: `place_staged` expands every occurrence of `~` in the
destination — each `~` character maps to the home path and every other
character is kept — so a `~` in a middle component (here
"/data/a~b.txt" with home "/home/dgx") is also substituted. -/
theorem C10_tilde_expanded_everywhere (home dest : String) :
    expandTilde home dest
      = String.mk ((dest.data.map (fun c => if c = '~' then home.data else [c])).flatten) ∧
    (handle_place_staged (fun _ _ => true) "/home/dgx"
       { session_id := "s1", filename := "f.txt", destination := "/data/a~b.txt" }).resp
      = .ok "/data/a/home/dgxb.txt" := by
  constructor
  · rw [expandTilde, pyReplaceChar_flatten]
  · decide

end DGX
